import Mathlib

/-!
Shallow embedding of the xgb-rs wrapper (src/dmatrix.rs, src/booster.rs).

The wrapper is glue over the native XGBoost C API: every public operation
makes one or more native calls and maps the returned status code (0 means
success) to a typed Rust result. The native library itself is outside the
repository, so its behaviour is a parameter of the embedding: a `NativeEnv`
records, for each C-API entry point the wrapper calls, the status code it
returns for given arguments, the handle it hands out, and the prediction
buffer it exposes. Each wrapper operation is embedded as a pure function of
the `NativeEnv` and its Rust arguments, returning the Rust outcome
(`ok` / typed error / panic, since `CString::new(..).unwrap()` can panic on
interior NUL bytes) together with the trace of native calls it performed.

`f32` values are carried opaquely by the wrapper (it never computes on
them), so they are embedded as their bit patterns.
-/

namespace XgbRs

/-- An `f32` value, represented by its bit pattern: the wrapper moves these
values around without doing any arithmetic on them. -/
structure F32 where
  bits : Nat
  deriving DecidableEq, Repr

/-- Outcome of a Rust function: `Ok`, a typed `Err`, or a panic
(`unwrap`/`expect` on a failed `CString::new`). -/
inductive RustOutcome (ε α : Type) where
  | ok (a : α)
  | err (e : ε)
  | panicked
  deriving DecidableEq, Repr

/-- `src/dmatrix.rs` lines 5-9: the only error variant of `DMatrixError`. -/
inductive DMatrixError where
  | Create
  deriving DecidableEq, Repr

/-- `src/booster.rs` lines 11-27: the `XGBoostError` enum. -/
inductive XGBoostError where
  | Create
  | Load
  | Predict
  | Train (round : Nat)
  | Config (key value : String)
  | Save
  | GetInfo (info : String)
  deriving DecidableEq, Repr

/-- One native C-API call as the wrapper issues it, with the arguments the
native side receives (handles stand in for the raw pointers). -/
inductive NativeCall where
  | createFromMat (data : List F32) (rows cols : Nat)
  | setFloatInfo (handle : Nat) (field : String) (data : List F32) (len : Nat)
  | boosterCreate (dmats : List Nat)
  | setParam (handle : Nat) (key value : String)
  | updateOneIter (handle iter dtrain : Nat)
  | saveModel (handle : Nat) (fname : String)
  | loadModel (handle : Nat) (fname : String)
  | predictFromDMatrix (bhandle dhandle : Nat)
  | getNumFeature (handle : Nat)
  deriving DecidableEq, Repr

/-- Behaviour of the native XGBoost library, one field per C-API entry point
the wrapper uses: the status code returned (0 = success), the handles handed
out, the prediction buffer, and the reported feature count. -/
structure NativeEnv where
  createFromMatStatus : List F32 → Nat → Nat → Int
  createFromMatHandle : List F32 → Nat → Nat → Nat
  setFloatInfoStatus : Nat → String → List F32 → Nat → Int
  boosterCreateStatus : List Nat → Int
  boosterCreateHandle : List Nat → Nat
  setParamStatus : Nat → String → String → Int
  updateOneIterStatus : Nat → Nat → Nat → Int
  saveModelStatus : Nat → String → Int
  loadModelStatus : Nat → String → Int
  predictStatus : Nat → Nat → Int
  predictBuffer : Nat → Nat → Nat → F32
  numFeatureStatus : Nat → Int
  numFeatureValue : Nat → Nat

/-- `src/dmatrix.rs` lines 11-15: the `DMatrix` struct. The column count is
stored in a field the source names `_cols` and never reads again. -/
structure DMatrix where
  handle : Nat
  rows : Nat
  cols : Nat
  deriving DecidableEq, Repr

/-- `src/booster.rs` lines 29-32: the `Booster` struct holds only the native
handle. -/
structure Booster where
  handle : Nat
  deriving DecidableEq, Repr

/-- `CString::new(s)` succeeds exactly when `s` has no interior NUL byte;
otherwise the wrapper's `unwrap()` panics. -/
def cstringOk (s : String) : Bool :=
  !(s.data.contains (Char.ofNat 0))

/-- `src/dmatrix.rs` lines 33-42, `DMatrix::try_from_data`: passes the data
pointer, `rows` and `cols` to `XGDMatrixCreateFromMat` and maps a nonzero
status to `DMatrixError::Create`. The slice length is never consulted. -/
def DMatrix.try_from_data (env : NativeEnv) (data : List F32) (rows cols : Nat) :
    RustOutcome DMatrixError DMatrix × List NativeCall :=
  (if env.createFromMatStatus data rows cols = 0 then
     RustOutcome.ok { handle := env.createFromMatHandle data rows cols, rows := rows, cols := cols }
   else RustOutcome.err DMatrixError.Create,
   [NativeCall.createFromMat data rows cols])

/-- `src/dmatrix.rs` lines 44-54, `DMatrix::try_add_label`: calls
`XGDMatrixSetFloatInfo` with the field name `"label"` and passes `self.rows`
as the length argument; the label slice's own length is never consulted.
`CString::new("label")` cannot fail, and its error is mapped (not
unwrapped), so no panic path exists here. -/
def DMatrix.try_add_label (env : NativeEnv) (m : DMatrix) (data : List F32) :
    RustOutcome DMatrixError Unit × List NativeCall :=
  (if env.setFloatInfoStatus m.handle "label" data m.rows = 0 then RustOutcome.ok ()
   else RustOutcome.err DMatrixError.Create,
   [NativeCall.setFloatInfo m.handle "label" data m.rows])

/-- `src/booster.rs` lines 35-44, `Booster::new`: `XGBoosterCreate` with no
cached matrices; nonzero status maps to `XGBoostError::Create`. -/
def Booster.new (env : NativeEnv) : RustOutcome XGBoostError Booster × List NativeCall :=
  (if env.boosterCreateStatus [] = 0 then
     RustOutcome.ok { handle := env.boosterCreateHandle [] }
   else RustOutcome.err XGBoostError.Create,
   [NativeCall.boosterCreate []])

/-- `src/booster.rs` lines 46-56, `Booster::set_conf`: `CString::new` is
unwrapped on both `key` and `value` (panic on interior NUL), then
`XGBoosterSetParam` is called once; nonzero status maps to
`XGBoostError::Config(key, value)`. -/
def Booster.set_conf (env : NativeEnv) (b : Booster) (key value : String) :
    RustOutcome XGBoostError Unit × List NativeCall :=
  if cstringOk key && cstringOk value then
    (if env.setParamStatus b.handle key value = 0 then RustOutcome.ok ()
     else RustOutcome.err (XGBoostError.Config key value),
     [NativeCall.setParam b.handle key value])
  else (RustOutcome.panicked, [])

/-- `src/booster.rs` lines 58-67, `Booster::get_number_of_features`: one
`XGBoosterGetNumFeature` call; nonzero status maps to `GetInfo`. -/
def Booster.get_number_of_features (env : NativeEnv) (b : Booster) :
    RustOutcome XGBoostError Nat × List NativeCall :=
  (if env.numFeatureStatus b.handle = 0 then RustOutcome.ok (env.numFeatureValue b.handle)
   else RustOutcome.err (XGBoostError.GetInfo "Number of Features"),
   [NativeCall.getNumFeature b.handle])

/-- The `for i in 0..num_boost` loop of `Booster::train` (`src/booster.rs`
lines 82-88), started at round `i` with `n` rounds remaining: each round
calls `XGBoosterUpdateOneIter` once; the first nonzero status aborts the
loop with `Train(i)`. Returns the loop result and the trace of calls. -/
def Booster.trainRounds (env : NativeEnv) (bhandle dhandle : Nat) :
    Nat → Nat → Except XGBoostError Unit × List NativeCall
  | _, 0 => (Except.ok (), [])
  | i, n + 1 =>
    if env.updateOneIterStatus bhandle i dhandle = 0 then
      let rest := Booster.trainRounds env bhandle dhandle (i + 1) n
      (rest.1, NativeCall.updateOneIter bhandle i dhandle :: rest.2)
    else
      (Except.error (XGBoostError.Train i), [NativeCall.updateOneIter bhandle i dhandle])

/-- `src/booster.rs` lines 69-90, `Booster::train`: creates a booster with
`dtrain`'s handle cached, then runs the update loop; the `_dtest` parameter
is never used. -/
def Booster.train (env : NativeEnv) (dtrain _dtest : DMatrix) (num_boost : Nat) :
    RustOutcome XGBoostError Booster × List NativeCall :=
  if env.boosterCreateStatus [dtrain.handle] = 0 then
    let bhandle := env.boosterCreateHandle [dtrain.handle]
    let rounds := Booster.trainRounds env bhandle dtrain.handle 0 num_boost
    (match rounds.1 with
     | Except.ok _ => RustOutcome.ok { handle := bhandle }
     | Except.error e => RustOutcome.err e,
     NativeCall.boosterCreate [dtrain.handle] :: rounds.2)
  else
    (RustOutcome.err XGBoostError.Create, [NativeCall.boosterCreate [dtrain.handle]])

/-- `src/booster.rs` lines 92-101, `Booster::save_model`: `CString::new`
unwrapped on `fname` (panic on interior NUL), then one `XGBoosterSaveModel`
call; nonzero status maps to `Save`. -/
def Booster.save_model (env : NativeEnv) (b : Booster) (fname : String) :
    RustOutcome XGBoostError Unit × List NativeCall :=
  if cstringOk fname then
    (if env.saveModelStatus b.handle fname = 0 then RustOutcome.ok ()
     else RustOutcome.err XGBoostError.Save,
     [NativeCall.saveModel b.handle fname])
  else (RustOutcome.panicked, [])

/-- `src/booster.rs` lines 103-112, `Booster::load_model`: `CString::new`
unwrapped on `fname` (panic on interior NUL), then one `XGBoosterLoadModel`
call; nonzero status maps to `Load`. -/
def Booster.load_model (env : NativeEnv) (b : Booster) (fname : String) :
    RustOutcome XGBoostError Unit × List NativeCall :=
  if cstringOk fname then
    (if env.loadModelStatus b.handle fname = 0 then RustOutcome.ok ()
     else RustOutcome.err XGBoostError.Load,
     [NativeCall.loadModel b.handle fname])
  else (RustOutcome.panicked, [])

/-- `src/booster.rs` lines 114-138, `Booster::predict`: one
`XGBoosterPredictFromDMatrix` call; on success the result slice is built
with `from_raw_parts(out_result, data.rows)`, i.e. exactly `data.rows`
values from the native buffer; nonzero status maps to `Predict`. The
prediction config `CString` is a NUL-free constant, so its `expect` cannot
fire. -/
def Booster.predict (env : NativeEnv) (b : Booster) (data : DMatrix) :
    RustOutcome XGBoostError (List F32) × List NativeCall :=
  (if env.predictStatus b.handle data.handle = 0 then
     RustOutcome.ok ((List.range data.rows).map (env.predictBuffer b.handle data.handle))
   else RustOutcome.err XGBoostError.Predict,
   [NativeCall.predictFromDMatrix b.handle data.handle])

/-- `Booster::predict` viewed as a state transformer: the Rust function
takes `&self` and `&DMatrix` (shared borrows) and writes none of their
fields, so the post-call booster and matrix are the pre-call ones. -/
def Booster.predictCall (env : NativeEnv) (b : Booster) (data : DMatrix) :
    (RustOutcome XGBoostError (List F32) × List NativeCall) × Booster × DMatrix :=
  (Booster.predict env b data, b, data)

/-- The native-call trace of `k` consecutive update rounds starting at round
`i`: one `XGBoosterUpdateOneIter` call per round, rounds in increasing
order. -/
def roundTrace (bhandle dhandle i k : Nat) : List NativeCall :=
  (List.range k).map (fun j => NativeCall.updateOneIter bhandle (i + j) dhandle)

/-- A call outcome paired with its trace is well behaved when no native call
is repeated (no internal retry) and the operation did not panic. -/
def wellBehaved {ε α : Type} (r : RustOutcome ε α × List NativeCall) : Prop :=
  r.2.Nodup ∧ r.1 ≠ RustOutcome.panicked

/-- A native environment in which every call succeeds: statuses are all 0,
handle 1 is handed to matrices, handle 2 to boosters, the prediction buffer
at index `i` holds bit pattern `i`, and the booster reports 3 features. -/
def envAllOk : NativeEnv where
  createFromMatStatus := fun _ _ _ => 0
  createFromMatHandle := fun _ _ _ => 1
  setFloatInfoStatus := fun _ _ _ _ => 0
  boosterCreateStatus := fun _ => 0
  boosterCreateHandle := fun _ => 2
  setParamStatus := fun _ _ _ => 0
  updateOneIterStatus := fun _ _ _ => 0
  saveModelStatus := fun _ _ => 0
  loadModelStatus := fun _ _ => 0
  predictStatus := fun _ _ => 0
  predictBuffer := fun _ _ i => { bits := i }
  numFeatureStatus := fun _ => 0
  numFeatureValue := fun _ => 3

/-- Like `envAllOk`, except `XGBoosterUpdateOneIter` fails (status 1) from
round 2 on. -/
def envFailAt2 : NativeEnv :=
  { envAllOk with updateOneIterStatus := fun _ i _ => if i < 2 then 0 else 1 }

/-- A string consisting of a single NUL byte: `CString::new` rejects it. -/
def nulString : String := String.mk [Char.ofNat 0]

/-- Peeling one round off a round trace. -/
theorem roundTrace_succ (bhandle dhandle i m : Nat) :
    roundTrace bhandle dhandle i (m + 1)
      = NativeCall.updateOneIter bhandle i dhandle :: roundTrace bhandle dhandle (i + 1) m := by
  unfold roundTrace
  rw [List.range_succ_eq_map, List.map_cons, List.map_map]
  refine congrArg₂ _ (by simp) (List.map_congr_left ?_)
  intro a _
  simp only [Function.comp_apply]
  congr 1
  omega

/-- Round traces are duplicate-free: each round index occurs once. -/
theorem roundTrace_nodup (bhandle dhandle i k : Nat) :
    (roundTrace bhandle dhandle i k).Nodup := by
  unfold roundTrace
  refine List.Nodup.map ?_ (List.nodup_range k)
  intro a b hab
  simp only [NativeCall.updateOneIter.injEq] at hab
  omega

/-- The booster-creation call never occurs inside a round trace. -/
theorem boosterCreate_not_mem_roundTrace (hs : List Nat) (bhandle dhandle i k : Nat) :
    NativeCall.boosterCreate hs ∉ roundTrace bhandle dhandle i k := by
  unfold roundTrace
  simp

/-- When every update status from round `i` on is 0, the loop completes and
its trace lists the `n` rounds in increasing order. -/
theorem trainRounds_all_ok (env : NativeEnv) (bhandle dhandle : Nat) :
    ∀ (n i : Nat), (∀ j, j < n → env.updateOneIterStatus bhandle (i + j) dhandle = 0) →
      Booster.trainRounds env bhandle dhandle i n = (Except.ok (), roundTrace bhandle dhandle i n) := by
  intro n
  induction n with
  | zero => intro i _; rfl
  | succ m ih =>
    intro i h
    have h0 : env.updateOneIterStatus bhandle i dhandle = 0 := by
      simpa using h 0 (Nat.succ_pos m)
    have hrest := ih (i + 1) (fun j hj => by
      have := h (j + 1) (by omega)
      simpa [Nat.add_assoc, Nat.add_comm 1 j] using this)
    simp [Booster.trainRounds, h0, hrest, roundTrace_succ]

/-- When rounds `i..i+k-1` succeed and round `i+k` fails, the loop stops at
round `i+k`, returns `Train (i+k)`, and its trace lists exactly rounds
`i..i+k` in increasing order. -/
theorem trainRounds_first_fail (env : NativeEnv) (bhandle dhandle : Nat) :
    ∀ (k i n : Nat), (∀ j, j < k → env.updateOneIterStatus bhandle (i + j) dhandle = 0) →
      env.updateOneIterStatus bhandle (i + k) dhandle ≠ 0 → k < n →
      Booster.trainRounds env bhandle dhandle i n
        = (Except.error (XGBoostError.Train (i + k)), roundTrace bhandle dhandle i (k + 1)) := by
  intro k
  induction k with
  | zero =>
    intro i n _ hbad hlt
    match n, hlt with
    | m + 1, _ =>
      have h0 : ¬ env.updateOneIterStatus bhandle i dhandle = 0 := by simpa using hbad
      simp [Booster.trainRounds, h0, roundTrace_succ]
      rfl
  | succ k ih =>
    intro i n hok hbad hlt
    match n, hlt with
    | m + 1, hlt =>
      have h0 : env.updateOneIterStatus bhandle i dhandle = 0 := by
        simpa using hok 0 (Nat.succ_pos k)
      have hrest := ih (i + 1) m
        (fun j hj => by
          have := hok (j + 1) (by omega)
          simpa [Nat.add_assoc, Nat.add_comm 1 j] using this)
        (by
          have : i + (k + 1) = i + 1 + k := by omega
          simpa [this] using hbad)
        (by omega)
      have harith : i + 1 + k = i + (k + 1) := by omega
      simp [Booster.trainRounds, h0, hrest, roundTrace_succ, harith]

/-- Whatever the native statuses, the loop's trace is some initial segment
of consecutive rounds. -/
theorem trainRounds_trace_shape (env : NativeEnv) (bhandle dhandle : Nat) :
    ∀ (n i : Nat), ∃ k, k ≤ n ∧
      (Booster.trainRounds env bhandle dhandle i n).2 = roundTrace bhandle dhandle i k := by
  intro n
  induction n with
  | zero => intro i; exact ⟨0, Nat.le_refl 0, rfl⟩
  | succ m ih =>
    intro i
    by_cases h0 : env.updateOneIterStatus bhandle i dhandle = 0
    · obtain ⟨k, hk, htr⟩ := ih (i + 1)
      exact ⟨k + 1, by omega, by simp [Booster.trainRounds, h0, htr, roundTrace_succ]⟩
    · refine ⟨1, by omega, by simp [Booster.trainRounds, h0, roundTrace_succ]; rfl⟩

/-- The trace of `Booster::train` never repeats a native call. -/
theorem train_trace_nodup (env : NativeEnv) (d1 d2 : DMatrix) (n : Nat) :
    ((Booster.train env d1 d2 n).2).Nodup := by
  by_cases hc : env.boosterCreateStatus [d1.handle] = 0
  · obtain ⟨k, _, htr⟩ :=
      trainRounds_trace_shape env (env.boosterCreateHandle [d1.handle]) d1.handle n 0
    simp [Booster.train, hc, htr, List.nodup_cons, boosterCreate_not_mem_roundTrace,
      roundTrace_nodup]
  · simp [Booster.train, hc]

/-- `Booster::train` has no panic path: its outcome is `ok` or a typed
error. -/
theorem train_not_panicked (env : NativeEnv) (d1 d2 : DMatrix) (n : Nat) :
    (Booster.train env d1 d2 n).1 ≠ RustOutcome.panicked := by
  by_cases hc : env.boosterCreateStatus [d1.handle] = 0
  · cases hr : (Booster.trainRounds env (env.boosterCreateHandle [d1.handle]) d1.handle 0 n).1 with
    | ok a => simp [Booster.train, hc, hr]
    | error e => simp [Booster.train, hc, hr]
  · simp [Booster.train, hc]

/-- `Booster::new` makes one native call and cannot panic. -/
theorem new_wellBehaved (env : NativeEnv) : wellBehaved (Booster.new env) := by
  constructor
  · simp [Booster.new]
  · by_cases h : env.boosterCreateStatus [] = 0 <;> simp [Booster.new, h]

/-- `Booster::set_conf` on NUL-free strings makes one native call and does
not panic. -/
theorem set_conf_wellBehaved (env : NativeEnv) (b : Booster) (key value : String)
    (hk : cstringOk key = true) (hv : cstringOk value = true) :
    wellBehaved (Booster.set_conf env b key value) := by
  constructor
  · simp [Booster.set_conf, hk, hv]
  · by_cases h : env.setParamStatus b.handle key value = 0 <;>
      simp [Booster.set_conf, hk, hv, h]

/-- `Booster::save_model` on a NUL-free path makes one native call and does
not panic. -/
theorem save_model_wellBehaved (env : NativeEnv) (b : Booster) (fname : String)
    (hf : cstringOk fname = true) : wellBehaved (Booster.save_model env b fname) := by
  constructor
  · simp [Booster.save_model, hf]
  · by_cases h : env.saveModelStatus b.handle fname = 0 <;> simp [Booster.save_model, hf, h]

/-- `Booster::load_model` on a NUL-free path makes one native call and does
not panic. -/
theorem load_model_wellBehaved (env : NativeEnv) (b : Booster) (fname : String)
    (hf : cstringOk fname = true) : wellBehaved (Booster.load_model env b fname) := by
  constructor
  · simp [Booster.load_model, hf]
  · by_cases h : env.loadModelStatus b.handle fname = 0 <;> simp [Booster.load_model, hf, h]

/-- `Booster::get_number_of_features` makes one native call and cannot
panic. -/
theorem get_number_of_features_wellBehaved (env : NativeEnv) (b : Booster) :
    wellBehaved (Booster.get_number_of_features env b) := by
  constructor
  · simp [Booster.get_number_of_features]
  · by_cases h : env.numFeatureStatus b.handle = 0 <;> simp [Booster.get_number_of_features, h]

/-- `Booster::predict` makes one native call and cannot panic. -/
theorem predict_wellBehaved (env : NativeEnv) (b : Booster) (m : DMatrix) :
    wellBehaved (Booster.predict env b m) := by
  constructor
  · simp [Booster.predict]
  · by_cases h : env.predictStatus b.handle m.handle = 0 <;> simp [Booster.predict, h]

/-- `DMatrix::try_from_data` makes one native call and cannot panic. -/
theorem try_from_data_wellBehaved (env : NativeEnv) (data : List F32) (rows cols : Nat) :
    wellBehaved (DMatrix.try_from_data env data rows cols) := by
  constructor
  · simp [DMatrix.try_from_data]
  · by_cases h : env.createFromMatStatus data rows cols = 0 <;> simp [DMatrix.try_from_data, h]

/-- `DMatrix::try_add_label` makes one native call and cannot panic. -/
theorem try_add_label_wellBehaved (env : NativeEnv) (m : DMatrix) (data : List F32) :
    wellBehaved (DMatrix.try_add_label env m data) := by
  constructor
  · simp [DMatrix.try_add_label]
  · by_cases h : env.setFloatInfoStatus m.handle "label" data m.rows = 0 <;>
      simp [DMatrix.try_add_label, h]

/-- `Booster::train` never repeats a native call and cannot panic. -/
theorem train_wellBehaved (env : NativeEnv) (d1 d2 : DMatrix) (n : Nat) :
    wellBehaved (Booster.train env d1 d2 n) :=
  ⟨train_trace_nodup env d1 d2 n, train_not_panicked env d1 d2 n⟩

/-- `Booster::new` fails, with `Create`, exactly when the native status is
nonzero: native failure is never swallowed into an `ok`. -/
theorem new_err_iff (env : NativeEnv) :
    (Booster.new env).1 = RustOutcome.err XGBoostError.Create ↔
      env.boosterCreateStatus [] ≠ 0 := by
  by_cases h : env.boosterCreateStatus [] = 0 <;> simp [Booster.new, h]

/-- `Booster::set_conf` on NUL-free strings fails, with `Config(key, value)`,
exactly when the native status is nonzero. -/
theorem set_conf_err_iff (env : NativeEnv) (b : Booster) (key value : String)
    (hk : cstringOk key = true) (hv : cstringOk value = true) :
    (Booster.set_conf env b key value).1 = RustOutcome.err (XGBoostError.Config key value) ↔
      env.setParamStatus b.handle key value ≠ 0 := by
  by_cases h : env.setParamStatus b.handle key value = 0 <;>
    simp [Booster.set_conf, hk, hv, h]

/-- `Booster::save_model` on a NUL-free path fails, with `Save`, exactly
when the native status is nonzero. -/
theorem save_model_err_iff (env : NativeEnv) (b : Booster) (fname : String)
    (hf : cstringOk fname = true) :
    (Booster.save_model env b fname).1 = RustOutcome.err XGBoostError.Save ↔
      env.saveModelStatus b.handle fname ≠ 0 := by
  by_cases h : env.saveModelStatus b.handle fname = 0 <;> simp [Booster.save_model, hf, h]

/-- `Booster::load_model` on a NUL-free path fails, with `Load`, exactly
when the native status is nonzero. -/
theorem load_model_err_iff (env : NativeEnv) (b : Booster) (fname : String)
    (hf : cstringOk fname = true) :
    (Booster.load_model env b fname).1 = RustOutcome.err XGBoostError.Load ↔
      env.loadModelStatus b.handle fname ≠ 0 := by
  by_cases h : env.loadModelStatus b.handle fname = 0 <;> simp [Booster.load_model, hf, h]

/-- `Booster::get_number_of_features` fails, with `GetInfo`, exactly when
the native status is nonzero. -/
theorem get_number_of_features_err_iff (env : NativeEnv) (b : Booster) :
    (Booster.get_number_of_features env b).1
        = RustOutcome.err (XGBoostError.GetInfo "Number of Features") ↔
      env.numFeatureStatus b.handle ≠ 0 := by
  by_cases h : env.numFeatureStatus b.handle = 0 <;> simp [Booster.get_number_of_features, h]

/-- `Booster::predict` fails, with `Predict`, exactly when the native
status is nonzero. -/
theorem predict_err_iff (env : NativeEnv) (b : Booster) (m : DMatrix) :
    (Booster.predict env b m).1 = RustOutcome.err XGBoostError.Predict ↔
      env.predictStatus b.handle m.handle ≠ 0 := by
  by_cases h : env.predictStatus b.handle m.handle = 0 <;> simp [Booster.predict, h]

/-- `DMatrix::try_from_data` fails, with `Create`, exactly when the native
status is nonzero. -/
theorem try_from_data_err_iff (env : NativeEnv) (data : List F32) (rows cols : Nat) :
    (DMatrix.try_from_data env data rows cols).1 = RustOutcome.err DMatrixError.Create ↔
      env.createFromMatStatus data rows cols ≠ 0 := by
  by_cases h : env.createFromMatStatus data rows cols = 0 <;> simp [DMatrix.try_from_data, h]

/-- `DMatrix::try_add_label` fails, with `Create`, exactly when the native
status is nonzero. -/
theorem try_add_label_err_iff (env : NativeEnv) (m : DMatrix) (data : List F32) :
    (DMatrix.try_add_label env m data).1 = RustOutcome.err DMatrixError.Create ↔
      env.setFloatInfoStatus m.handle "label" data m.rows ≠ 0 := by
  by_cases h : env.setFloatInfoStatus m.handle "label" data m.rows = 0 <;>
    simp [DMatrix.try_add_label, h]

/-- When native booster creation fails, `Booster::train` reports `Create`
rather than swallowing the failure. -/
theorem train_create_fail (env : NativeEnv) (d1 d2 : DMatrix) (n : Nat)
    (hc : env.boosterCreateStatus [d1.handle] ≠ 0) :
    (Booster.train env d1 d2 n).1 = RustOutcome.err XGBoostError.Create := by
  simp [Booster.train, hc]

/-- Claim C1 counterexample: with every native call succeeding, a data slice
of length 5 is accepted for a 2 by 2 matrix (rows*cols = 4), so a length
mismatch does not make `try_from_data` fail. -/
theorem try_from_data_accepts_mismatched_length :
    (List.replicate 5 (⟨7⟩ : F32)).length ≠ 2 * 2 ∧
    (DMatrix.try_from_data envAllOk (List.replicate 5 ⟨7⟩) 2 2).1
      = RustOutcome.ok { handle := 1, rows := 2, cols := 2 } := by
  exact ⟨by decide, rfl⟩

/-- Claim C1 (amended): `try_from_data` performs no shape validation: the
slice length is never consulted, so two data slices that draw the same
native response give identical results whatever their lengths, and the call
fails (with `DMatrixError::Create`, the wrapper's only creation error)
exactly when the native `XGDMatrixCreateFromMat` status is nonzero. -/
theorem try_from_data_outcome_ignores_data_length (env : NativeEnv)
    (d1 d2 : List F32) (rows cols : Nat)
    (hst : env.createFromMatStatus d1 rows cols = env.createFromMatStatus d2 rows cols)
    (hh : env.createFromMatHandle d1 rows cols = env.createFromMatHandle d2 rows cols) :
    (DMatrix.try_from_data env d1 rows cols).1 = (DMatrix.try_from_data env d2 rows cols).1 ∧
    ((DMatrix.try_from_data env d1 rows cols).1 = RustOutcome.err DMatrixError.Create ↔
      env.createFromMatStatus d1 rows cols ≠ 0) := by
  constructor
  · unfold DMatrix.try_from_data
    rw [hst, hh]
  · by_cases h : env.createFromMatStatus d1 rows cols = 0 <;>
      simp [DMatrix.try_from_data, h]

/-- Claim C1 witness: the amended theorem applied to a length-5 and a
length-4 slice for a 2 by 2 matrix under the all-success environment. -/
theorem try_from_data_outcome_ignores_data_length_witness :
    envAllOk.createFromMatStatus (List.replicate 5 (⟨7⟩ : F32)) 2 2
        = envAllOk.createFromMatStatus (List.replicate 4 (⟨7⟩ : F32)) 2 2 ∧
    envAllOk.createFromMatHandle (List.replicate 5 (⟨7⟩ : F32)) 2 2
        = envAllOk.createFromMatHandle (List.replicate 4 (⟨7⟩ : F32)) 2 2 ∧
    ((DMatrix.try_from_data envAllOk (List.replicate 5 ⟨7⟩) 2 2).1
        = (DMatrix.try_from_data envAllOk (List.replicate 4 ⟨7⟩) 2 2).1 ∧
      ((DMatrix.try_from_data envAllOk (List.replicate 5 ⟨7⟩) 2 2).1
          = RustOutcome.err DMatrixError.Create ↔
        envAllOk.createFromMatStatus (List.replicate 5 (⟨7⟩ : F32)) 2 2 ≠ 0)) :=
  ⟨rfl, rfl, try_from_data_outcome_ignores_data_length envAllOk _ _ 2 2 rfl rfl⟩

/-- Claim C2 counterexample: on a 2-row matrix, with every native call
succeeding, a label slice of length 3 is accepted, so a length mismatch
does not make `try_add_label` fail. -/
theorem try_add_label_accepts_mismatched_length :
    (List.replicate 3 (⟨7⟩ : F32)).length ≠ (2 : Nat) ∧
    (DMatrix.try_add_label envAllOk { handle := 1, rows := 2, cols := 2 }
        (List.replicate 3 ⟨7⟩)).1 = RustOutcome.ok () := by
  exact ⟨by decide, rfl⟩

/-- Claim C2 (amended): `try_add_label` performs no length validation: the
native `XGDMatrixSetFloatInfo` call always receives `self.rows` as the
length argument and the label slice's own length is never consulted, the
outcome is determined by the native status alone, and on native failure the
error is `DMatrixError::Create` (the error enum has no `LengthMismatch`
variant). -/
theorem try_add_label_outcome_ignores_label_length (env : NativeEnv) (m : DMatrix)
    (d1 d2 : List F32)
    (hst : env.setFloatInfoStatus m.handle "label" d1 m.rows
        = env.setFloatInfoStatus m.handle "label" d2 m.rows) :
    (DMatrix.try_add_label env m d1).1 = (DMatrix.try_add_label env m d2).1 ∧
    (DMatrix.try_add_label env m d1).2 = [NativeCall.setFloatInfo m.handle "label" d1 m.rows] ∧
    ((DMatrix.try_add_label env m d1).1 = RustOutcome.err DMatrixError.Create ↔
      env.setFloatInfoStatus m.handle "label" d1 m.rows ≠ 0) := by
  refine ⟨?_, rfl, ?_⟩
  · unfold DMatrix.try_add_label
    rw [hst]
  · by_cases h : env.setFloatInfoStatus m.handle "label" d1 m.rows = 0 <;>
      simp [DMatrix.try_add_label, h]

/-- Claim C2 witness: the amended theorem applied to a 2-row matrix with a
length-3 and a length-2 label slice under the all-success environment. -/
theorem try_add_label_outcome_ignores_label_length_witness :
    envAllOk.setFloatInfoStatus 1 "label" (List.replicate 3 (⟨7⟩ : F32)) 2
        = envAllOk.setFloatInfoStatus 1 "label" (List.replicate 2 (⟨7⟩ : F32)) 2 ∧
    ((DMatrix.try_add_label envAllOk { handle := 1, rows := 2, cols := 2 }
          (List.replicate 3 ⟨7⟩)).1
        = (DMatrix.try_add_label envAllOk { handle := 1, rows := 2, cols := 2 }
          (List.replicate 2 ⟨7⟩)).1 ∧
      (DMatrix.try_add_label envAllOk { handle := 1, rows := 2, cols := 2 }
          (List.replicate 3 ⟨7⟩)).2
        = [NativeCall.setFloatInfo 1 "label" (List.replicate 3 ⟨7⟩) 2] ∧
      ((DMatrix.try_add_label envAllOk { handle := 1, rows := 2, cols := 2 }
            (List.replicate 3 ⟨7⟩)).1 = RustOutcome.err DMatrixError.Create ↔
        envAllOk.setFloatInfoStatus 1 "label" (List.replicate 3 (⟨7⟩ : F32)) 2 ≠ 0)) :=
  ⟨rfl, try_add_label_outcome_ignores_label_length envAllOk
    { handle := 1, rows := 2, cols := 2 } _ _ rfl⟩

/-- Claim C3 counterexample: the booster reports 3 features, the matrix has
2 columns, yet with a succeeding native call `predict` returns `ok`, not a
shape error. -/
theorem predict_succeeds_on_feature_mismatch :
    (Booster.get_number_of_features envAllOk { handle := 2 }).1 = RustOutcome.ok 3 ∧
    (2 : Nat) ≠ 3 ∧
    (Booster.predict envAllOk { handle := 2 } { handle := 1, rows := 4, cols := 2 }).1
      = RustOutcome.ok [⟨0⟩, ⟨1⟩, ⟨2⟩, ⟨3⟩] := by
  exact ⟨rfl, by decide, rfl⟩

/-- Claim C3 (amended): `predict` never consults the matrix's column count
(the source stores it in an unused `_cols` field), so its result is
identical for any two column counts; it fails exactly when the native
`XGBoosterPredictFromDMatrix` status is nonzero, and then with
`XGBoostError::Predict` (there is no dedicated shape error). -/
theorem predict_ignores_cols (env : NativeEnv) (b : Booster) (h r c1 c2 : Nat) :
    Booster.predict env b { handle := h, rows := r, cols := c1 }
      = Booster.predict env b { handle := h, rows := r, cols := c2 } ∧
    ((Booster.predict env b { handle := h, rows := r, cols := c1 }).1
        = RustOutcome.err XGBoostError.Predict ↔ env.predictStatus b.handle h ≠ 0) := by
  refine ⟨rfl, ?_⟩
  by_cases hp : env.predictStatus b.handle h = 0 <;> simp [Booster.predict, hp]

/-- Claim C4: when booster creation succeeds, rounds `0..k-1` succeed and
round `k < num_boost` is the first to fail, `Booster::train` returns
`Err(Train(k))` and its native-call trace is the creation call followed by
exactly the update calls for rounds `0, 1, ..., k` in increasing order: the
failure is reported and no later round is attempted. -/
theorem train_reports_first_failing_round (env : NativeEnv) (dtrain dtest : DMatrix)
    (n k : Nat)
    (hc : env.boosterCreateStatus [dtrain.handle] = 0)
    (hok : ∀ j, j < k →
      env.updateOneIterStatus (env.boosterCreateHandle [dtrain.handle]) j dtrain.handle = 0)
    (hbad : env.updateOneIterStatus (env.boosterCreateHandle [dtrain.handle]) k dtrain.handle ≠ 0)
    (hlt : k < n) :
    Booster.train env dtrain dtest n
      = (RustOutcome.err (XGBoostError.Train k),
         NativeCall.boosterCreate [dtrain.handle] ::
           roundTrace (env.boosterCreateHandle [dtrain.handle]) dtrain.handle 0 (k + 1)) := by
  have hfail := trainRounds_first_fail env (env.boosterCreateHandle [dtrain.handle])
    dtrain.handle k 0 n
    (fun j hj => by simpa using hok j hj)
    (by simpa using hbad) hlt
  simp [Booster.train, hc, hfail]

/-- Claim C4 witness: under an environment whose update call fails from
round 2 on, training for 4 rounds stops with `Train 2` after attempting
rounds 0, 1, 2 in order. -/
theorem train_reports_first_failing_round_witness :
    envFailAt2.boosterCreateStatus [1] = 0 ∧
    (∀ j, j < 2 → envFailAt2.updateOneIterStatus (envFailAt2.boosterCreateHandle [1]) j 1 = 0) ∧
    envFailAt2.updateOneIterStatus (envFailAt2.boosterCreateHandle [1]) 2 1 ≠ 0 ∧
    2 < 4 ∧
    Booster.train envFailAt2 { handle := 1, rows := 2, cols := 2 }
        { handle := 3, rows := 2, cols := 2 } 4
      = (RustOutcome.err (XGBoostError.Train 2),
         NativeCall.boosterCreate [1] ::
           roundTrace (envFailAt2.boosterCreateHandle [1]) 1 0 3) :=
  ⟨rfl, by decide, by decide, by decide,
   train_reports_first_failing_round envFailAt2 { handle := 1, rows := 2, cols := 2 }
     { handle := 3, rows := 2, cols := 2 } 4 2 rfl (by decide) (by decide) (by decide)⟩

/-- Claim C5: the evaluation dataset is ignored: `Booster::train` gives the
same result (outcome and native-call trace) for any two `_dtest`
arguments. -/
theorem train_ignores_dtest (env : NativeEnv) (dtrain d1 d2 : DMatrix) (n : Nat) :
    Booster.train env dtrain d1 n = Booster.train env dtrain d2 n := rfl

/-- Claim C6: a successful `predict` returns exactly one value per row: the
output vector's length is the matrix's row count. -/
theorem predict_length_eq_rows (env : NativeEnv) (b : Booster) (d : DMatrix) (out : List F32)
    (hout : (Booster.predict env b d).1 = RustOutcome.ok out) :
    out.length = d.rows := by
  by_cases hp : env.predictStatus b.handle d.handle = 0
  · simp [Booster.predict, hp] at hout
    subst hout
    simp
  · simp [Booster.predict, hp] at hout

/-- Claim C6 witness: predicting a 3-row matrix under the all-success
environment returns a 3-element vector. -/
theorem predict_length_eq_rows_witness :
    (Booster.predict envAllOk { handle := 2 } { handle := 1, rows := 3, cols := 3 }).1
      = RustOutcome.ok [⟨0⟩, ⟨1⟩, ⟨2⟩] ∧
    ([⟨0⟩, ⟨1⟩, ⟨2⟩] : List F32).length = 3 :=
  ⟨rfl, predict_length_eq_rows envAllOk { handle := 2 } { handle := 1, rows := 3, cols := 3 }
    [⟨0⟩, ⟨1⟩, ⟨2⟩] rfl⟩

/-- Claim C7: `predict` is deterministic and mutation-free: it leaves the
booster and the matrix exactly as they were (the Rust function takes only
shared borrows and writes no field), and a second call on the post-call
state returns the same output vector bit for bit. -/
theorem predict_deterministic_no_mutation (env : NativeEnv) (b : Booster) (d : DMatrix) :
    (Booster.predictCall env b d).2.1 = b ∧
    (Booster.predictCall env b d).2.2 = d ∧
    (Booster.predictCall env (Booster.predictCall env b d).2.1
        (Booster.predictCall env b d).2.2).1.1
      = (Booster.predictCall env b d).1.1 :=
  ⟨rfl, rfl, rfl⟩

/-- Claim C8 counterexample: `set_conf` with a key holding an interior NUL
byte panics (`CString::new(key).unwrap()`) instead of returning a typed
error. -/
theorem set_conf_panics_on_nul_key :
    Booster.set_conf envAllOk { handle := 2 } nulString "hist"
      = (RustOutcome.panicked, []) := rfl

/-- Claim C8 (amended): every public operation makes each native call at
most once (no internal retry), never panics on NUL-free strings, and
surfaces every native failure as its typed error enum — for each operation
the outcome is the operation's typed error exactly when the native status
is nonzero (so no failure is swallowed into an `ok`), and a failing booster
creation inside `train` is reported as `Create`. The exception forcing the
amendment: `set_conf`, `save_model` and `load_model` panic on a string with
an interior NUL byte. -/
theorem operations_no_retry_no_panic (env : NativeEnv) (b : Booster)
    (key value fname : String) (m dtr dte : DMatrix) (data : List F32) (rows cols n : Nat)
    (hk : cstringOk key = true) (hv : cstringOk value = true) (hf : cstringOk fname = true) :
    (wellBehaved (Booster.new env) ∧
      ((Booster.new env).1 = RustOutcome.err XGBoostError.Create ↔
        env.boosterCreateStatus [] ≠ 0)) ∧
    (wellBehaved (Booster.set_conf env b key value) ∧
      ((Booster.set_conf env b key value).1 = RustOutcome.err (XGBoostError.Config key value) ↔
        env.setParamStatus b.handle key value ≠ 0)) ∧
    (wellBehaved (Booster.save_model env b fname) ∧
      ((Booster.save_model env b fname).1 = RustOutcome.err XGBoostError.Save ↔
        env.saveModelStatus b.handle fname ≠ 0)) ∧
    (wellBehaved (Booster.load_model env b fname) ∧
      ((Booster.load_model env b fname).1 = RustOutcome.err XGBoostError.Load ↔
        env.loadModelStatus b.handle fname ≠ 0)) ∧
    (wellBehaved (Booster.get_number_of_features env b) ∧
      ((Booster.get_number_of_features env b).1
          = RustOutcome.err (XGBoostError.GetInfo "Number of Features") ↔
        env.numFeatureStatus b.handle ≠ 0)) ∧
    (wellBehaved (Booster.predict env b m) ∧
      ((Booster.predict env b m).1 = RustOutcome.err XGBoostError.Predict ↔
        env.predictStatus b.handle m.handle ≠ 0)) ∧
    (wellBehaved (DMatrix.try_from_data env data rows cols) ∧
      ((DMatrix.try_from_data env data rows cols).1 = RustOutcome.err DMatrixError.Create ↔
        env.createFromMatStatus data rows cols ≠ 0)) ∧
    (wellBehaved (DMatrix.try_add_label env m data) ∧
      ((DMatrix.try_add_label env m data).1 = RustOutcome.err DMatrixError.Create ↔
        env.setFloatInfoStatus m.handle "label" data m.rows ≠ 0)) ∧
    (wellBehaved (Booster.train env dtr dte n) ∧
      (env.boosterCreateStatus [dtr.handle] ≠ 0 →
        (Booster.train env dtr dte n).1 = RustOutcome.err XGBoostError.Create)) :=
  ⟨⟨new_wellBehaved env, new_err_iff env⟩,
   ⟨set_conf_wellBehaved env b key value hk hv, set_conf_err_iff env b key value hk hv⟩,
   ⟨save_model_wellBehaved env b fname hf, save_model_err_iff env b fname hf⟩,
   ⟨load_model_wellBehaved env b fname hf, load_model_err_iff env b fname hf⟩,
   ⟨get_number_of_features_wellBehaved env b, get_number_of_features_err_iff env b⟩,
   ⟨predict_wellBehaved env b m, predict_err_iff env b m⟩,
   ⟨try_from_data_wellBehaved env data rows cols, try_from_data_err_iff env data rows cols⟩,
   ⟨try_add_label_wellBehaved env m data, try_add_label_err_iff env m data⟩,
   ⟨train_wellBehaved env dtr dte n, fun hc => train_create_fail env dtr dte n hc⟩⟩

/-- Claim C8 witness: the amended theorem at NUL-free strings and concrete
matrices under the all-success environment. -/
theorem operations_no_retry_no_panic_witness :
    cstringOk "eta" = true ∧ cstringOk "0.1" = true ∧ cstringOk "model.json" = true ∧
    ((wellBehaved (Booster.new envAllOk) ∧
      ((Booster.new envAllOk).1 = RustOutcome.err XGBoostError.Create ↔
        envAllOk.boosterCreateStatus [] ≠ 0)) ∧
     (wellBehaved (Booster.set_conf envAllOk { handle := 2 } "eta" "0.1") ∧
      ((Booster.set_conf envAllOk { handle := 2 } "eta" "0.1").1
          = RustOutcome.err (XGBoostError.Config "eta" "0.1") ↔
        envAllOk.setParamStatus 2 "eta" "0.1" ≠ 0)) ∧
     (wellBehaved (Booster.save_model envAllOk { handle := 2 } "model.json") ∧
      ((Booster.save_model envAllOk { handle := 2 } "model.json").1
          = RustOutcome.err XGBoostError.Save ↔
        envAllOk.saveModelStatus 2 "model.json" ≠ 0)) ∧
     (wellBehaved (Booster.load_model envAllOk { handle := 2 } "model.json") ∧
      ((Booster.load_model envAllOk { handle := 2 } "model.json").1
          = RustOutcome.err XGBoostError.Load ↔
        envAllOk.loadModelStatus 2 "model.json" ≠ 0)) ∧
     (wellBehaved (Booster.get_number_of_features envAllOk { handle := 2 }) ∧
      ((Booster.get_number_of_features envAllOk { handle := 2 }).1
          = RustOutcome.err (XGBoostError.GetInfo "Number of Features") ↔
        envAllOk.numFeatureStatus 2 ≠ 0)) ∧
     (wellBehaved (Booster.predict envAllOk { handle := 2 } { handle := 1, rows := 2, cols := 2 }) ∧
      ((Booster.predict envAllOk { handle := 2 } { handle := 1, rows := 2, cols := 2 }).1
          = RustOutcome.err XGBoostError.Predict ↔
        envAllOk.predictStatus 2 1 ≠ 0)) ∧
     (wellBehaved (DMatrix.try_from_data envAllOk (List.replicate 4 ⟨7⟩) 2 2) ∧
      ((DMatrix.try_from_data envAllOk (List.replicate 4 ⟨7⟩) 2 2).1
          = RustOutcome.err DMatrixError.Create ↔
        envAllOk.createFromMatStatus (List.replicate 4 (⟨7⟩ : F32)) 2 2 ≠ 0)) ∧
     (wellBehaved (DMatrix.try_add_label envAllOk { handle := 1, rows := 2, cols := 2 }
          (List.replicate 4 ⟨7⟩)) ∧
      ((DMatrix.try_add_label envAllOk { handle := 1, rows := 2, cols := 2 }
            (List.replicate 4 ⟨7⟩)).1 = RustOutcome.err DMatrixError.Create ↔
        envAllOk.setFloatInfoStatus 1 "label" (List.replicate 4 (⟨7⟩ : F32)) 2 ≠ 0)) ∧
     (wellBehaved (Booster.train envAllOk { handle := 1, rows := 2, cols := 2 }
          { handle := 3, rows := 2, cols := 2 } 1) ∧
      (envAllOk.boosterCreateStatus [1] ≠ 0 →
        (Booster.train envAllOk { handle := 1, rows := 2, cols := 2 }
            { handle := 3, rows := 2, cols := 2 } 1).1
          = RustOutcome.err XGBoostError.Create))) :=
  ⟨rfl, rfl, rfl,
   operations_no_retry_no_panic envAllOk { handle := 2 } "eta" "0.1" "model.json"
     { handle := 1, rows := 2, cols := 2 } { handle := 1, rows := 2, cols := 2 }
     { handle := 3, rows := 2, cols := 2 } (List.replicate 4 ⟨7⟩) 2 2 1 rfl rfl rfl⟩

/-- Claim C10: when native booster creation succeeds, training with zero
rounds performs no update iteration (the trace holds only the creation
call) and returns `Ok` with the freshly created booster. -/
theorem train_zero_rounds_ok (env : NativeEnv) (dtrain dtest : DMatrix)
    (hc : env.boosterCreateStatus [dtrain.handle] = 0) :
    Booster.train env dtrain dtest 0
      = (RustOutcome.ok { handle := env.boosterCreateHandle [dtrain.handle] },
         [NativeCall.boosterCreate [dtrain.handle]]) := by
  simp [Booster.train, hc, Booster.trainRounds]

/-- Claim C10 witness: zero-round training on a concrete matrix under the
all-success environment. -/
theorem train_zero_rounds_ok_witness :
    envAllOk.boosterCreateStatus [1] = 0 ∧
    Booster.train envAllOk { handle := 1, rows := 2, cols := 2 }
        { handle := 3, rows := 2, cols := 2 } 0
      = (RustOutcome.ok { handle := envAllOk.boosterCreateHandle [1] },
         [NativeCall.boosterCreate [1]]) :=
  ⟨rfl, train_zero_rounds_ok envAllOk { handle := 1, rows := 2, cols := 2 }
    { handle := 3, rows := 2, cols := 2 } rfl⟩

end XgbRs
